import Mathlib

/-!
Verification of the babamul alert-normalization and photometry-reconciliation
layer (src/babamul/raw_models.py, src/babamul/models.py).

Python floats are modelled as exact real numbers (`ℝ`), with the IEEE value
`float("inf")` represented by `⊤ : EReal` where a quantity can be infinite.
Fields that are nullable in the pydantic models (`float | None`, ...) are
modelled as `Option`.  A Python function that can raise on some inputs is
modelled as returning an `Option`/`Except`, with `none`/`error` standing for
the raised exception.
-/

namespace Babamul

/-- Closed enumeration of photometric filters (class `Band` in raw_models.py). -/
inductive Band where
  | g | r | i | z | y | u
deriving DecidableEq, Repr

/-- `LSST_ZP = 8.9` (raw_models.py). -/
def LSST_ZP : ℝ := 8.9

/-- `ZTF_ZP = 23.9` (raw_models.py). -/
def ZTF_ZP : ℝ := 23.9

/-- `flux2mag(flux, flux_err, zp)` from raw_models.py: converts flux and flux
error to magnitude and magnitude error.  Returns `(inf, 0.0)` when
`flux <= 0`; otherwise `(zp - 2.5*log10(flux), (2.5/ln 10)*(flux_err/flux))`.
The magnitude is an `EReal` so that the `inf` sentinel is representable. -/
noncomputable def flux2mag (flux flux_err zp : ℝ) : EReal × ℝ :=
  if flux ≤ 0 then
    (⊤, 0)  -- non-detection or negative flux
  else
    (((zp - 2.5 * Real.logb 10 flux : ℝ) : EReal),
      (2.5 / Real.log 10) * (flux_err / flux))

/-- `fluxerr2diffmaglim(flux_err, zp)` from raw_models.py: converts a flux
error to a 3-sigma difference magnitude limit.  Returns `inf` when
`flux_err <= 0`; otherwise `zp - 2.5*log10(3*flux_err)`. -/
noncomputable def fluxerr2diffmaglim (flux_err zp : ℝ) : EReal :=
  if flux_err ≤ 0 then
    ⊤  -- non-detection or negative flux error
  else
    ((zp - 2.5 * Real.logb 10 (3 * flux_err) : ℝ) : EReal)

/-- Raw model `AlertPhotometry` (raw_models.py): a prior-detection record.
`psfFlux` is declared nullable with default `None`. -/
structure AlertPhotometry where
  jd : ℝ
  psfFlux : Option ℝ := none
  psfFluxErr : ℝ
  band : Band
  ra : ℝ
  dec : ℝ

/-- Raw model `NonDetectionPhotometry` (raw_models.py). -/
structure NonDetectionPhotometry where
  jd : ℝ
  psfFluxErr : ℝ
  band : Band

/-- Raw model `ForcedPhotometry` (raw_models.py): a forced-photometry record.
`psfFlux` is declared nullable with default `None`. -/
structure ForcedPhotometry where
  jd : ℝ
  psfFlux : Option ℝ := none
  psfFluxErr : ℝ
  band : Band

/-- Unified model `Photometry` (raw_models.py).  `magpsf` and `diffmaglim`
are nullable floats that may also be `inf`, hence `Option EReal`. -/
structure Photometry where
  jd : ℝ
  magpsf : Option EReal := none
  sigmapsf : Option ℝ := none
  isdiffpos : Option Bool := none
  diffmaglim : Option EReal := none
  psfFlux : Option ℝ := none
  psfFluxErr : ℝ
  band : Band
  zp : Option ℝ := none
  ra : Option ℝ := none
  dec : Option ℝ := none
  snr : Option ℝ := none

/-- The `snr` expression computed in `Photometry.from_alert_photometry`:
`abs(psfFlux) / psfFluxErr if psfFluxErr > 0 else 0`, applied to a present
flux value. -/
noncomputable def alertSnr (flux psfFluxErr : ℝ) : ℝ :=
  if psfFluxErr > 0 then |flux| / psfFluxErr else 0

/-- `Photometry.from_alert_photometry(photometry, survey_zp)` from
raw_models.py.  The Python body evaluates `abs(photometry.psfFlux * 1e-9)`,
which raises a `TypeError` when `psfFlux` is `None`; the raise is modelled
as `none`. -/
noncomputable def Photometry.from_alert_photometry
    (photometry : AlertPhotometry) (survey_zp : ℝ) : Option Photometry :=
  match photometry.psfFlux with
  | none => none  -- TypeError: None * 1e-9
  | some flux =>
    let ms := flux2mag (|flux * 1e-9|) (photometry.psfFluxErr * 1e-9) survey_zp
    let snr := alertSnr flux photometry.psfFluxErr
    some
      { jd := photometry.jd
        magpsf := some ms.1
        sigmapsf := some ms.2
        isdiffpos := some (decide (flux > 0))
        psfFlux := some flux
        psfFluxErr := photometry.psfFluxErr
        band := photometry.band
        zp := some survey_zp
        ra := some photometry.ra
        dec := some photometry.dec
        snr := some snr }

/-- `Photometry.from_non_detection_photometry(photometry, survey_zp)` from
raw_models.py.  Total: never raises. -/
noncomputable def Photometry.from_non_detection_photometry
    (photometry : NonDetectionPhotometry) (survey_zp : ℝ) : Photometry :=
  { jd := photometry.jd
    magpsf := none
    sigmapsf := none
    isdiffpos := none
    diffmaglim := some (fluxerr2diffmaglim (photometry.psfFluxErr * 1e-9) survey_zp)
    psfFlux := none
    psfFluxErr := photometry.psfFluxErr
    band := photometry.band
    zp := some survey_zp
    ra := none
    dec := none
    snr := none }

/-- The `snr` expression computed in `Photometry.from_forced_photometry`:
`abs(psfFlux) / psfFluxErr if psfFluxErr > 0 else 0`.  When `psfFluxErr > 0`
and `psfFlux` is `None`, evaluating `abs(None)` raises, modelled as `none`. -/
noncomputable def ForcedPhotometry.computedSnr (p : ForcedPhotometry) : Option ℝ :=
  if p.psfFluxErr > 0 then
    p.psfFlux.map fun flux => |flux| / p.psfFluxErr
  else
    some 0

/-- `Photometry.from_forced_photometry(photometry, survey_zp)` from
raw_models.py: computes `snr`, then classifies the record as a non-detection
(`snr < 3`: populate `diffmaglim`) or a detection (otherwise: populate
`magpsf`/`sigmapsf`).  The raise while computing `snr` (null `psfFlux` with
`psfFluxErr > 0`) is modelled as `none`; the inner `none` branch is
unreachable since `snr >= 3` forces a present `psfFlux`. -/
noncomputable def Photometry.from_forced_photometry
    (photometry : ForcedPhotometry) (survey_zp : ℝ) : Option Photometry :=
  match photometry.computedSnr with
  | none => none  -- TypeError: abs(None)
  | some snr =>
    if snr < 3 then
      some
        { jd := photometry.jd
          magpsf := none
          sigmapsf := none
          diffmaglim :=
            some (fluxerr2diffmaglim (photometry.psfFluxErr * 1e-9) survey_zp)
          psfFlux := photometry.psfFlux
          psfFluxErr := photometry.psfFluxErr
          band := photometry.band
          zp := some survey_zp
          ra := none
          dec := none
          snr := some snr }
    else
      match photometry.psfFlux with
      | none => none
      | some flux =>
        let ms :=
          flux2mag (|flux * 1e-9|) (photometry.psfFluxErr * 1e-9) survey_zp
        some
          { jd := photometry.jd
            magpsf := some ms.1
            sigmapsf := some ms.2
            diffmaglim := none
            psfFlux := photometry.psfFlux
            psfFluxErr := photometry.psfFluxErr
            band := photometry.band
            zp := some survey_zp
            ra := none
            dec := none
            snr := some snr }

/-- `NedMatch` (models.py). -/
structure NedMatch where
  objname : Option String := none
  objtype : Option String := none
  ra : ℝ
  dec : ℝ
  z : Option ℝ := none
  z_unc : Option ℝ := none
  z_tech : Option String := none
  z_qual : Option (String ⊕ Bool) := none
  DistMpc : Option ℝ := none
  DistMpc_unc : Option ℝ := none
  ebv : Option ℝ := none
  distance_arcsec : Option ℝ := none
  distance_kpc : Option ℝ := none

/-- `CatwiseMatch` (models.py). -/
structure CatwiseMatch where
  source_name : String
  ra : ℝ
  dec : ℝ
  sigra : Option ℝ := none
  sigdec : Option ℝ := none
  w1mpro : Option ℝ := none
  w2mpro : Option ℝ := none
  w1sigmpro : Option ℝ := none
  w2sigmpro : Option ℝ := none
  w1rchi2 : Option ℝ := none
  w2rchi2 : Option ℝ := none
  pmra : Option ℝ := none
  pmdec : Option ℝ := none
  sigpmra : Option ℝ := none
  sigpmdec : Option ℝ := none
  unwise_objid : Option (Int ⊕ String) := none
  distance_arcsec : Option ℝ := none

/-- `VsxMatch` (models.py). -/
structure VsxMatch where
  name : String
  var_flag : Option (String ⊕ Int) := none
  ra : ℝ
  dec : ℝ
  types : Option (List String) := none
  max : Option ℝ := none
  max_band : Option String := none
  min_is_amplitude : Option Bool := none
  min : Option ℝ := none
  min_band : Option String := none
  epoch : Option ℝ := none
  period : Option ℝ := none
  spectral_type : Option String := none
  distance_arcsec : Option ℝ := none

/-- `MilliquasarMatch` (models.py). -/
structure MilliquasarMatch where
  id : String
  ra : ℝ
  dec : ℝ
  distance_arcsec : Option ℝ := none

/-- `GaiaMatch` (models.py). -/
structure GaiaMatch where
  id : Int ⊕ String
  ra : ℝ
  dec : ℝ
  parallax : Option ℝ := none
  parallax_error : Option ℝ := none
  pm : Option ℝ := none
  pmra : Option ℝ := none
  pmra_error : Option ℝ := none
  pmdec : Option ℝ := none
  pmdec_error : Option ℝ := none
  phot_g_mean_mag : Option ℝ := none
  phot_bp_mean_mag : Option ℝ := none
  phot_rp_mean_mag : Option ℝ := none
  phot_g_n_obs : Option Int := none
  phot_bp_n_obs : Option Int := none
  phot_rp_n_obs : Option Int := none
  ruwe : Option ℝ := none
  phot_bp_rp_excess_factor : Option ℝ := none
  distance_arcsec : Option ℝ := none

/-- `LSPSCMatch` (models.py). -/
structure LSPSCMatch where
  id : Int ⊕ String
  ra : ℝ
  dec : ℝ
  score : Option ℝ := none
  mag_white : Option ℝ := none
  distance_arcsec : Option ℝ := none

/-- `CrossMatches` (models.py): per-alert collection of archival-catalog
match lists, one nullable list per catalog, each defaulting to empty. -/
structure CrossMatches where
  ned : Option (List NedMatch) := some []
  catwise : Option (List CatwiseMatch) := some []
  vsx : Option (List VsxMatch) := some []
  milliquasar : Option (List MilliquasarMatch) := some []
  gaia : Option (List GaiaMatch) := some []
  lspsc : Option (List LSPSCMatch) := some []

/-- `ObjPhotometry` (models.py): photometry data returned by the REST API
for one object; the three lists default to empty (never null). -/
structure ObjPhotometry where
  objectId : String
  prv_candidates : List Photometry := []
  prv_nondetections : List Photometry := []
  fp_hists : List Photometry := []

/-- `ZtfAlert` (models.py), extending `EnrichedZtfAlert` (raw_models.py).
Only the fields read by the operations verified here are embedded: the
`candidate`, `properties`, `survey_matches` and cutout payload fields are
carried opaquely by the Python code and never inspected by `get_photometry`
or `add_cross_matches`. -/
structure ZtfAlert where
  candid : Int
  objectId : String
  prv_candidates : Option (List Photometry) := none
  prv_nondetections : Option (List Photometry) := none
  fp_hists : Option (List Photometry) := none
  topic : Option String := none
  cross_matches : Option CrossMatches := none

/-- `LsstAlert` (models.py), extending `EnrichedLsstAlert` (raw_models.py);
same field selection as `ZtfAlert`.  LSST alerts have no
`prv_nondetections` list. -/
structure LsstAlert where
  candid : Int
  objectId : String
  prv_candidates : Option (List Photometry) := none
  fp_hists : Option (List Photometry) := none
  topic : Option String := none
  cross_matches : Option CrossMatches := none

/-- Stable insertion of one record into a jd-sorted list: the new record
goes after every record with a strictly smaller `jd` and before every other
record it is compared with. -/
noncomputable def insertByJd (p : Photometry) : List Photometry → List Photometry
  | [] => [p]
  | q :: qs => if q.jd < p.jd then q :: insertByJd p qs else p :: q :: qs

/-- Model of `photometry.sort(key=lambda x: x.jd)` (models.py):  Python's
`list.sort` is a stable sort by the key, and the stable sort of a list by a
total key is unique, so it is embedded as a stable insertion sort. -/
noncomputable def sortByJd : List Photometry → List Photometry
  | [] => []
  | p :: ps => insertByJd p (sortByJd ps)

/-- Model of the deduplication loop of `get_photometry` (models.py): scan in
order, keep a record iff its `(jd, band)` key has not been seen, adding kept
keys to `seen`. -/
noncomputable def dedupByJdBand : List Photometry → List (ℝ × Band) → List Photometry
  | [], _ => []
  | p :: ps, seen =>
    if (p.jd, p.band) ∈ seen then
      dedupByJdBand ps seen
    else
      p :: dedupByJdBand ps ((p.jd, p.band) :: seen)

/-- `ZtfAlert.get_photometry(deduplicated)` (models.py).  The external REST
collaborator `api.get_photometry("ZTF", objectId)` is passed as the `api`
argument.  The Python method mutates `self` (lazy backfill); the embedding
returns the result list together with the post-state of the alert and the
number of backfill fetches performed (0 or 1). -/
noncomputable def ZtfAlert.get_photometry (api : String → ObjPhotometry)
    (self : ZtfAlert) (deduplicated : Bool := true) :
    List Photometry × ZtfAlert × Nat :=
  let fetched :=
    if self.prv_candidates.isNone && self.fp_hists.isNone
        && self.prv_nondetections.isNone then
      let photometry_data := api self.objectId
      ({ self with
          prv_candidates := some photometry_data.prv_candidates
          fp_hists := some photometry_data.fp_hists
          prv_nondetections := some photometry_data.prv_nondetections }, 1)
    else
      (self, 0)
  let self := fetched.1
  -- extend with prv_candidates, then fp_hists, then prv_nondetections;
  -- `if self.prv_candidates:` only skips extending by an empty list
  let photometry :=
    self.prv_candidates.getD [] ++ self.fp_hists.getD []
      ++ self.prv_nondetections.getD []
  let photometry := sortByJd photometry
  let photometry :=
    if deduplicated then dedupByJdBand photometry [] else photometry
  (photometry, self, fetched.2)

/-- `LsstAlert.get_photometry(deduplicated)` (models.py): as for ZTF but
with only `prv_candidates` and `fp_hists`. -/
noncomputable def LsstAlert.get_photometry (api : String → ObjPhotometry)
    (self : LsstAlert) (deduplicated : Bool := true) :
    List Photometry × LsstAlert × Nat :=
  let fetched :=
    if self.prv_candidates.isNone && self.fp_hists.isNone then
      let photometry_data := api self.objectId
      ({ self with
          prv_candidates := some photometry_data.prv_candidates
          fp_hists := some photometry_data.fp_hists }, 1)
    else
      (self, 0)
  let self := fetched.1
  let photometry := self.prv_candidates.getD [] ++ self.fp_hists.getD []
  let photometry := sortByJd photometry
  let photometry :=
    if deduplicated then dedupByJdBand photometry [] else photometry
  (photometry, self, fetched.2)

/-- The two concrete alert variants of `list[ZtfAlert | LsstAlert]`;
`isinstance` dispatch becomes a match on the constructor. -/
inductive Alert where
  | ztf (a : ZtfAlert)
  | lsst (a : LsstAlert)

/-- The survey tag passed to the bulk cross-match fetch. -/
inductive Survey where
  | ZTF | LSST
deriving DecidableEq

/-- Modelled from the spec: the error kind raised by the external REST
collaborator on a transport or authentication failure of a whole bulk
request (spec sections 6 and 7); its payload is irrelevant here. -/
structure APIError where
  message : String

/-- Modelled from the spec: the type of `get_cross_matches_bulk`, which is
imported by `add_cross_matches` but is not among the sources.  Per the spec
(section 6) it maps a survey and a list of object IDs to a mapping
`objectId -> CrossMatches` (here an association list, read with `lookup`),
and per sections 4.4 and 7 a transport or authentication failure on the
whole partition propagates, modelled as `Except.error`. -/
def BulkFetch : Type :=
  Survey → List String → Except APIError (List (String × CrossMatches))

/-- The object IDs collected by `add_cross_matches` for the ZTF partition:
IDs of ZTF alerts whose `cross_matches` is currently unset. -/
def ztfPendingIds (alerts : List Alert) : List String :=
  alerts.filterMap fun a =>
    match a with
    | .ztf z => if z.cross_matches.isNone then some z.objectId else none
    | .lsst _ => none

/-- The object IDs collected by `add_cross_matches` for the LSST partition. -/
def lsstPendingIds (alerts : List Alert) : List String :=
  alerts.filterMap fun a =>
    match a with
    | .ztf _ => none
    | .lsst l => if l.cross_matches.isNone then some l.objectId else none

/-- `add_cross_matches(alerts, n_threads)` (models.py): fetch cross-matches
in bulk per survey for the alerts still missing them, then assign
`cross_matches = fetched.get(objectId)` to every alert of the matching
survey.  A raise from either bulk fetch is modelled as `Except.error`; the
`n_threads` argument only parameterizes the external fetch and is absorbed
into `fetch`. -/
def add_cross_matches (fetch : BulkFetch) (alerts : List Alert) :
    Except APIError (List Alert) := do
  let ztf_object_ids := ztfPendingIds alerts
  let ztf_cross_matches ← fetch .ZTF ztf_object_ids
  let lsst_object_ids := lsstPendingIds alerts
  let lsst_cross_matches ← fetch .LSST lsst_object_ids
  pure <| alerts.map fun alert =>
    match alert with
    | .ztf a => .ztf { a with cross_matches := ztf_cross_matches.lookup a.objectId }
    | .lsst a => .lsst { a with cross_matches := lsst_cross_matches.lookup a.objectId }

/-- The post-state of the alert list after calling `add_cross_matches`: the
Python function mutates the alerts in place only in its final loop, which
runs after both bulk fetches, so when a fetch raises the list is observed
unchanged. -/
def add_cross_matches_run (fetch : BulkFetch) (alerts : List Alert) : List Alert :=
  match add_cross_matches fetch alerts with
  | .ok res => res
  | .error _ => alerts

/-! ## Numeric conversion primitives: flux2mag and fluxerr2diffmaglim -/

/-- C5.  For `flux <= 0`, `flux2mag` returns the sentinel `(inf, 0.0)`
without raising; for `flux > 0` it returns
`mag = zp - 2.5*log10(flux)` (finite) and
`mag_err = (2.5/ln 10)*(flux_err/flux)`, and `mag_err >= 0` whenever
`flux_err >= 0` (the claim asserted `mag_err >= 0` for every `flux_err`,
which fails for negative `flux_err`). -/
theorem c5_flux2mag_spec (flux flux_err zp : ℝ) :
    (flux ≤ 0 → flux2mag flux flux_err zp = (⊤, 0)) ∧
    (0 < flux →
      flux2mag flux flux_err zp =
        (((zp - 2.5 * Real.logb 10 flux : ℝ) : EReal),
          (2.5 / Real.log 10) * (flux_err / flux)) ∧
      (flux2mag flux flux_err zp).1 ≠ ⊤ ∧
      (flux2mag flux flux_err zp).1 ≠ ⊥ ∧
      (0 ≤ flux_err → 0 ≤ (flux2mag flux flux_err zp).2)) := by
  constructor
  · intro h
    rw [flux2mag, if_pos h]
  · intro h
    have hne : ¬ flux ≤ 0 := not_le.mpr h
    have heq : flux2mag flux flux_err zp =
        (((zp - 2.5 * Real.logb 10 flux : ℝ) : EReal),
          (2.5 / Real.log 10) * (flux_err / flux)) := by
      rw [flux2mag, if_neg hne]
    refine ⟨heq, ?_, ?_, ?_⟩
    · rw [heq]
      exact EReal.coe_ne_top _
    · rw [heq]
      exact EReal.coe_ne_bot _
    · intro hferr
      rw [heq]
      have hc : (0 : ℝ) ≤ 2.5 / Real.log 10 :=
        le_of_lt (div_pos (by norm_num) (Real.log_pos (by norm_num)))
      exact mul_nonneg hc (div_nonneg hferr h.le)

/-- C5 witness: both branches of `c5_flux2mag_spec` applied at concrete
inputs. -/
theorem c5_flux2mag_spec_witness :
    flux2mag (-1) 0 0 = (⊤, 0) ∧
    flux2mag 1 2 0 =
      (((0 - 2.5 * Real.logb 10 1 : ℝ) : EReal),
        (2.5 / Real.log 10) * (2 / 1)) ∧
    0 ≤ (flux2mag 1 2 0).2 :=
  ⟨(c5_flux2mag_spec (-1) 0 0).1 (by norm_num),
    ((c5_flux2mag_spec 1 2 0).2 (by norm_num)).1,
    ((c5_flux2mag_spec 1 2 0).2 (by norm_num)).2.2.2 (by norm_num)⟩

/-- C5 counterexample to the claim as stated: at `flux = 1 > 0`,
`flux_err = -1`, `zp = 0` the returned `mag_err` is negative, refuting
"for every flux > 0 and any flux_err ... mag_err >= 0". -/
theorem c5_counterexample_negative_magErr :
    0 < (1 : ℝ) ∧ (flux2mag 1 (-1) 0).2 < 0 := by
  refine ⟨by norm_num, ?_⟩
  have heq : (flux2mag 1 (-1) 0).2 = (2.5 / Real.log 10) * ((-1) / 1) := by
    rw [flux2mag, if_neg (by norm_num : ¬ (1 : ℝ) ≤ 0)]
  rw [heq]
  have hc : (0 : ℝ) < 2.5 / Real.log 10 :=
    div_pos (by norm_num) (Real.log_pos (by norm_num))
  nlinarith

/-- C6.  `fluxerr2diffmaglim` returns `+inf` for `flux_err <= 0` and the
finite 3-sigma limit `zp - 2.5*log10(3*flux_err)` for `flux_err > 0`. -/
theorem c6_fluxerr2diffmaglim_spec (flux_err zp : ℝ) :
    (flux_err ≤ 0 → fluxerr2diffmaglim flux_err zp = ⊤) ∧
    (0 < flux_err →
      fluxerr2diffmaglim flux_err zp =
        ((zp - 2.5 * Real.logb 10 (3 * flux_err) : ℝ) : EReal) ∧
      fluxerr2diffmaglim flux_err zp ≠ ⊤ ∧
      fluxerr2diffmaglim flux_err zp ≠ ⊥) := by
  constructor
  · intro h
    rw [fluxerr2diffmaglim, if_pos h]
  · intro h
    have heq : fluxerr2diffmaglim flux_err zp =
        ((zp - 2.5 * Real.logb 10 (3 * flux_err) : ℝ) : EReal) := by
      rw [fluxerr2diffmaglim, if_neg (not_le.mpr h)]
    refine ⟨heq, ?_, ?_⟩
    · rw [heq]; exact EReal.coe_ne_top _
    · rw [heq]; exact EReal.coe_ne_bot _

/-- C6 witness: both branches of `c6_fluxerr2diffmaglim_spec` at concrete
inputs. -/
theorem c6_fluxerr2diffmaglim_spec_witness :
    fluxerr2diffmaglim (-1) 0 = ⊤ ∧
    fluxerr2diffmaglim 1 0 =
      ((0 - 2.5 * Real.logb 10 (3 * 1) : ℝ) : EReal) ∧
    fluxerr2diffmaglim 1 0 ≠ ⊤ :=
  ⟨(c6_fluxerr2diffmaglim_spec (-1) 0).1 (by norm_num),
    ((c6_fluxerr2diffmaglim_spec 1 0).2 (by norm_num)).1,
    ((c6_fluxerr2diffmaglim_spec 1 0).2 (by norm_num)).2.1⟩

/-! ## Photometry reconciliation -/

/-- C2.  Whenever the `snr` expression of `from_forced_photometry` evaluates
(to `snr`), reconciliation succeeds; with `snr >= 3` the result has `magpsf`
and `sigmapsf` set and `diffmaglim` unset, with `snr < 3` the reverse — so a
record sitting exactly at `snr == 3` is classified as a detection. -/
theorem c2_forced_snr_classification (p : ForcedPhotometry) (zp snr : ℝ)
    (hs : p.computedSnr = some snr) :
    ∃ q, Photometry.from_forced_photometry p zp = some q ∧
      q.snr = some snr ∧
      (3 ≤ snr → q.magpsf.isSome ∧ q.sigmapsf.isSome ∧ q.diffmaglim = none) ∧
      (snr < 3 → q.diffmaglim.isSome ∧ q.magpsf = none ∧ q.sigmapsf = none) := by
  simp only [Photometry.from_forced_photometry, hs]
  by_cases h3 : snr < 3
  · rw [if_pos h3]
    exact ⟨_, rfl, rfl,
      fun hge => absurd h3 (not_lt.mpr hge),
      fun _ => ⟨rfl, rfl, rfl⟩⟩
  · rw [if_neg h3]
    have herr : 0 < p.psfFluxErr := by
      by_contra hle
      rw [ForcedPhotometry.computedSnr, if_neg hle] at hs
      have h0 : snr = 0 := (Option.some.inj hs).symm
      exact h3 (by rw [h0]; norm_num)
    obtain ⟨flux, hflux⟩ : ∃ f, p.psfFlux = some f := by
      rcases hfl : p.psfFlux with _ | f
      · rw [ForcedPhotometry.computedSnr, if_pos herr, hfl] at hs
        exact absurd hs (by simp)
      · exact ⟨f, rfl⟩
    rw [hflux]
    exact ⟨_, rfl, rfl,
      fun _ => ⟨rfl, rfl, rfl⟩,
      fun hlt => absurd hlt h3⟩

/-- The forced-photometry record used to witness the `snr == 3` boundary:
`psfFlux = 3`, `psfFluxErr = 1`, so the computed snr is exactly 3. -/
def forcedBoundaryRecord : ForcedPhotometry :=
  { jd := 0, psfFlux := some 3, psfFluxErr := 1, band := Band.g }

/-- C2 witness: the boundary record with computed `snr == 3` reconciles, as
`c2_forced_snr_classification` states, into a detection. -/
theorem c2_forced_snr_classification_witness :
    forcedBoundaryRecord.computedSnr = some 3 ∧
    ∃ q, Photometry.from_forced_photometry forcedBoundaryRecord ZTF_ZP = some q ∧
      q.snr = some 3 ∧
      ((3 : ℝ) ≤ 3 → q.magpsf.isSome ∧ q.sigmapsf.isSome ∧ q.diffmaglim = none) ∧
      ((3 : ℝ) < 3 → q.diffmaglim.isSome ∧ q.magpsf = none ∧ q.sigmapsf = none) := by
  have hs : forcedBoundaryRecord.computedSnr = some 3 := by
    simp only [ForcedPhotometry.computedSnr, forcedBoundaryRecord]
    norm_num
  exact ⟨hs, c2_forced_snr_classification forcedBoundaryRecord ZTF_ZP 3 hs⟩

/-- C4.  Every record produced by one of the three reconciliation
constructors has exactly one of `magpsf`, `diffmaglim` present — never both,
never neither. -/
theorem c4_exactly_one_of_mag_or_limit (q : Photometry)
    (h : (∃ p zp, Photometry.from_alert_photometry p zp = some q) ∨
         (∃ p zp, Photometry.from_non_detection_photometry p zp = q) ∨
         (∃ p zp, Photometry.from_forced_photometry p zp = some q)) :
    (q.magpsf.isSome ∧ q.diffmaglim = none) ∨
      (q.magpsf = none ∧ q.diffmaglim.isSome) := by
  rcases h with ⟨p, zp, hp⟩ | ⟨p, zp, hp⟩ | ⟨p, zp, hp⟩
  · rw [Photometry.from_alert_photometry] at hp
    rcases hfl : p.psfFlux with _ | f <;> rw [hfl] at hp
    · exact absurd hp (by simp)
    · cases Option.some.inj hp
      exact Or.inl ⟨rfl, rfl⟩
  · rw [Photometry.from_non_detection_photometry] at hp
    cases hp
    exact Or.inr ⟨rfl, rfl⟩
  · rcases hsn : p.computedSnr with _ | snr <;>
      simp only [Photometry.from_forced_photometry, hsn] at hp
    · exact absurd hp (by simp)
    · by_cases h3 : snr < 3
      · rw [if_pos h3] at hp
        cases Option.some.inj hp
        exact Or.inr ⟨rfl, rfl⟩
      · rw [if_neg h3] at hp
        rcases hfl : p.psfFlux with _ | f <;> simp only [hfl] at hp
        · exact absurd hp (by simp)
        · cases Option.some.inj hp
          exact Or.inl ⟨rfl, rfl⟩

/-- A concrete non-detection raw record used by witnesses. -/
def nonDetectionRecord : NonDetectionPhotometry :=
  { jd := 1, psfFluxErr := 2, band := Band.r }

/-- C4 witness: `c4_exactly_one_of_mag_or_limit` applied to the record built
by `from_non_detection_photometry` from `nonDetectionRecord`. -/
theorem c4_exactly_one_of_mag_or_limit_witness :
    ((∃ p zp, Photometry.from_alert_photometry p zp =
        some (Photometry.from_non_detection_photometry nonDetectionRecord ZTF_ZP)) ∨
     (∃ p zp, Photometry.from_non_detection_photometry p zp =
        Photometry.from_non_detection_photometry nonDetectionRecord ZTF_ZP) ∨
     (∃ p zp, Photometry.from_forced_photometry p zp =
        some (Photometry.from_non_detection_photometry nonDetectionRecord ZTF_ZP))) ∧
    (((Photometry.from_non_detection_photometry nonDetectionRecord ZTF_ZP).magpsf.isSome ∧
        (Photometry.from_non_detection_photometry nonDetectionRecord ZTF_ZP).diffmaglim = none) ∨
      ((Photometry.from_non_detection_photometry nonDetectionRecord ZTF_ZP).magpsf = none ∧
        (Photometry.from_non_detection_photometry nonDetectionRecord ZTF_ZP).diffmaglim.isSome)) :=
  ⟨Or.inr (Or.inl ⟨nonDetectionRecord, ZTF_ZP, rfl⟩),
    c4_exactly_one_of_mag_or_limit _ (Or.inr (Or.inl ⟨nonDetectionRecord, ZTF_ZP, rfl⟩))⟩

/-- C10.  A null `psfFlux` makes `from_alert_photometry` raise (modelled as
`none`) unconditionally, and `from_forced_photometry` raise whenever
`psfFluxErr > 0`; under the precondition that `psfFlux` is non-null both
constructors always succeed. -/
theorem c10_null_psfFlux_raises (p : AlertPhotometry) (q : ForcedPhotometry) (zp : ℝ) :
    (p.psfFlux = none → Photometry.from_alert_photometry p zp = none) ∧
    (q.psfFlux = none → 0 < q.psfFluxErr →
      Photometry.from_forced_photometry q zp = none) ∧
    (p.psfFlux.isSome → (Photometry.from_alert_photometry p zp).isSome) ∧
    (q.psfFlux.isSome → (Photometry.from_forced_photometry q zp).isSome) := by
  refine ⟨?_, ?_, ?_, ?_⟩
  · intro h
    rw [Photometry.from_alert_photometry, h]
  · intro h herr
    rw [Photometry.from_forced_photometry, ForcedPhotometry.computedSnr,
      if_pos herr, h]
    rfl
  · intro h
    obtain ⟨f, hf⟩ := Option.isSome_iff_exists.mp h
    rw [Photometry.from_alert_photometry, hf]
    rfl
  · intro h
    obtain ⟨f, hf⟩ := Option.isSome_iff_exists.mp h
    simp only [Photometry.from_forced_photometry, ForcedPhotometry.computedSnr, hf]
    by_cases herr : q.psfFluxErr > 0
    · simp only [if_pos herr, Option.map_some']
      by_cases h3 : |f| / q.psfFluxErr < 3
      · rw [if_pos h3]; rfl
      · rw [if_neg h3]; rfl
    · simp only [if_neg herr]
      rw [if_pos (by norm_num : (0:ℝ) < 3)]
      rfl

/-- C10 witness: both the raising and the succeeding branches of
`c10_null_psfFlux_raises` at concrete records. -/
theorem c10_null_psfFlux_raises_witness :
    Photometry.from_alert_photometry
      { jd := 0, psfFlux := none, psfFluxErr := 1, band := Band.g, ra := 0, dec := 0 }
      ZTF_ZP = none ∧
    Photometry.from_forced_photometry
      { jd := 0, psfFlux := none, psfFluxErr := 1, band := Band.g } ZTF_ZP = none ∧
    (Photometry.from_alert_photometry
      { jd := 0, psfFlux := some 5, psfFluxErr := 1, band := Band.g, ra := 0, dec := 0 }
      ZTF_ZP).isSome ∧
    (Photometry.from_forced_photometry
      { jd := 0, psfFlux := some 5, psfFluxErr := 1, band := Band.g } ZTF_ZP).isSome :=
  ⟨(c10_null_psfFlux_raises
      { jd := 0, psfFlux := none, psfFluxErr := 1, band := Band.g, ra := 0, dec := 0 }
      { jd := 0, psfFlux := none, psfFluxErr := 1, band := Band.g } ZTF_ZP).1 rfl,
   (c10_null_psfFlux_raises
      { jd := 0, psfFlux := none, psfFluxErr := 1, band := Band.g, ra := 0, dec := 0 }
      { jd := 0, psfFlux := none, psfFluxErr := 1, band := Band.g } ZTF_ZP).2.1 rfl
      (by norm_num),
   (c10_null_psfFlux_raises
      { jd := 0, psfFlux := some 5, psfFluxErr := 1, band := Band.g, ra := 0, dec := 0 }
      { jd := 0, psfFlux := some 5, psfFluxErr := 1, band := Band.g } ZTF_ZP).2.2.1 rfl,
   (c10_null_psfFlux_raises
      { jd := 0, psfFlux := some 5, psfFluxErr := 1, band := Band.g, ra := 0, dec := 0 }
      { jd := 0, psfFlux := some 5, psfFluxErr := 1, band := Band.g } ZTF_ZP).2.2.2 rfl⟩

/-! ## Light-curve combination: sorting and deduplication lemmas -/

/-- Membership in an insertion: exactly the inserted record plus the old
ones. -/
theorem mem_insertByJd {a p : Photometry} {l : List Photometry} :
    a ∈ insertByJd p l ↔ a = p ∨ a ∈ l := by
  induction l with
  | nil => simp [insertByJd]
  | cons q qs ih =>
    rw [insertByJd]
    split_ifs with hlt
    · simp only [List.mem_cons, ih]
      try tauto
    · simp only [List.mem_cons]
      try tauto

/-- Insertion preserves the non-decreasing-jd invariant. -/
theorem sorted_insertByJd {p : Photometry} {l : List Photometry}
    (h : List.Pairwise (fun a b => a.jd ≤ b.jd) l) :
    List.Pairwise (fun a b => a.jd ≤ b.jd) (insertByJd p l) := by
  induction l with
  | nil => simp [insertByJd]
  | cons q qs ih =>
    rw [insertByJd]
    rcases List.pairwise_cons.mp h with ⟨hq, hqs⟩
    split_ifs with hlt
    · refine List.pairwise_cons.mpr ⟨?_, ih hqs⟩
      intro a ha
      rcases mem_insertByJd.mp ha with rfl | ha
      · exact le_of_lt hlt
      · exact hq a ha
    · refine List.pairwise_cons.mpr ⟨?_, h⟩
      intro a ha
      rcases List.mem_cons.mp ha with rfl | ha
      · exact not_lt.mp hlt
      · exact le_trans (not_lt.mp hlt) (hq a ha)

/-- The sorted combination is non-decreasing in `jd`. -/
theorem sorted_sortByJd (l : List Photometry) :
    List.Pairwise (fun a b => a.jd ≤ b.jd) (sortByJd l) := by
  induction l with
  | nil => exact List.Pairwise.nil
  | cons p ps ih =>
    rw [sortByJd]
    exact sorted_insertByJd ih

theorem length_insertByJd (p : Photometry) (l : List Photometry) :
    (insertByJd p l).length = l.length + 1 := by
  induction l with
  | nil => rfl
  | cons q qs ih =>
    rw [insertByJd]
    split_ifs with hlt
    · simp [ih]
    · simp

/-- Sorting preserves the number of records. -/
theorem length_sortByJd (l : List Photometry) :
    (sortByJd l).length = l.length := by
  induction l with
  | nil => rfl
  | cons p ps ih =>
    rw [sortByJd, length_insertByJd, ih]
    rfl

/-- Deduplication only drops records. -/
theorem dedupByJdBand_sublist (l : List Photometry) (seen : List (ℝ × Band)) :
    (dedupByJdBand l seen).Sublist l := by
  induction l generalizing seen with
  | nil => simp [dedupByJdBand]
  | cons p ps ih =>
    rw [dedupByJdBand]
    split_ifs with h
    · exact (ih seen).cons p
    · exact (ih _).cons₂ p

/-- After deduplication no two records share a `(jd, band)` key, and no kept
record has a key from `seen`. -/
theorem dedupByJdBand_keys_nodup (l : List Photometry) (seen : List (ℝ × Band)) :
    ((dedupByJdBand l seen).map fun p => (p.jd, p.band)).Nodup ∧
      ∀ p ∈ dedupByJdBand l seen, (p.jd, p.band) ∉ seen := by
  induction l generalizing seen with
  | nil => simp [dedupByJdBand]
  | cons p ps ih =>
    rw [dedupByJdBand]
    split_ifs with h
    · exact ⟨(ih seen).1, (ih seen).2⟩
    · obtain ⟨h1, h2⟩ := ih ((p.jd, p.band) :: seen)
      refine ⟨?_, ?_⟩
      · rw [List.map_cons, List.nodup_cons]
        refine ⟨?_, h1⟩
        intro hmem
        obtain ⟨q, hq, hkey⟩ := List.mem_map.mp hmem
        exact h2 q hq (by rw [hkey]; exact List.mem_cons_self _ _)
      · intro q hq
        rcases List.mem_cons.mp hq with rfl | hq
        · exact h
        · intro hmem
          exact h2 q hq (List.mem_cons_of_mem _ hmem)

/-- The first record carrying a given `(jd, band)` key, in list order. -/
noncomputable def findKey (k : ℝ × Band) : List Photometry → Option Photometry
  | [] => none
  | p :: ps => if (p.jd, p.band) = k then some p else findKey k ps

/-- Inserting `p` finds `p` first for its own key: every record placed
before the insertion point has a strictly smaller `jd`. -/
theorem findKey_insertByJd_self {p : Photometry} {l : List Photometry} :
    findKey (p.jd, p.band) (insertByJd p l) = some p := by
  induction l with
  | nil => simp [insertByJd, findKey]
  | cons q qs ih =>
    rw [insertByJd]
    split_ifs with hlt
    · rw [findKey, if_neg ?_]
      · exact ih
      · intro hkey
        have hjd : q.jd = p.jd := congrArg Prod.fst hkey
        rw [hjd] at hlt
        exact lt_irrefl _ hlt
    · rw [findKey, if_pos rfl]

/-- Insertion of a record with a different key does not change which record
is found first for `k`. -/
theorem findKey_insertByJd_ne {p : Photometry} {l : List Photometry}
    {k : ℝ × Band} (hk : (p.jd, p.band) ≠ k) :
    findKey k (insertByJd p l) = findKey k l := by
  induction l with
  | nil => simp [insertByJd, findKey, hk]
  | cons q qs ih =>
    rw [insertByJd]
    split_ifs with hlt
    · rw [findKey]
      conv_rhs => rw [findKey]
      split_ifs with hq
      · rfl
      · exact ih
    · rw [findKey, if_neg hk]

/-- Stability: sorting by `jd` does not change which record is found first
for any `(jd, band)` key (all records sharing a key share a `jd`). -/
theorem findKey_sortByJd (k : ℝ × Band) (l : List Photometry) :
    findKey k (sortByJd l) = findKey k l := by
  induction l with
  | nil => rfl
  | cons p ps ih =>
    rw [sortByJd, findKey]
    by_cases hk : (p.jd, p.band) = k
    · rw [if_pos hk]
      cases hk
      exact findKey_insertByJd_self
    · rw [if_neg hk, findKey_insertByJd_ne hk, ih]

/-- Deduplication keeps, for each unseen key, exactly the record found first
for that key. -/
theorem findKey_dedupByJdBand {k : ℝ × Band} {seen : List (ℝ × Band)}
    (l : List Photometry) (hk : k ∉ seen) :
    findKey k (dedupByJdBand l seen) = findKey k l := by
  induction l generalizing seen with
  | nil => rfl
  | cons p ps ih =>
    rw [dedupByJdBand]
    split_ifs with hmem
    · rw [findKey, if_neg ?_]
      · exact ih hk
      · intro hkey
        rw [hkey] at hmem
        exact hk hmem
    · rw [findKey]
      conv_rhs => rw [findKey]
      split_ifs with hkey
      · rfl
      · refine ih ?_
        intro hin
        rcases List.mem_cons.mp hin with h | h
        · exact hkey h.symm
        · exact hk h

/-- Evaluation of `ZtfAlert.get_photometry` when at least one photometry
list is populated: no backfill fetch happens and the alert is unchanged. -/
theorem ztf_get_photometry_of_populated (api : String → ObjPhotometry)
    (za : ZtfAlert) (d : Bool)
    (h : (za.prv_candidates.isNone && za.fp_hists.isNone &&
      za.prv_nondetections.isNone) = false) :
    ZtfAlert.get_photometry api za d =
      ((if d then
          dedupByJdBand (sortByJd (za.prv_candidates.getD [] ++ za.fp_hists.getD []
            ++ za.prv_nondetections.getD [])) []
        else
          sortByJd (za.prv_candidates.getD [] ++ za.fp_hists.getD []
            ++ za.prv_nondetections.getD [])),
        za, 0) := by
  simp [ZtfAlert.get_photometry, h]

/-- Evaluation of `ZtfAlert.get_photometry` when all photometry lists are
null: one backfill fetch happens and the three lists are cached. -/
theorem ztf_get_photometry_of_empty (api : String → ObjPhotometry)
    (za : ZtfAlert) (d : Bool)
    (h : (za.prv_candidates.isNone && za.fp_hists.isNone &&
      za.prv_nondetections.isNone) = true) :
    ZtfAlert.get_photometry api za d =
      ((if d then
          dedupByJdBand (sortByJd ((api za.objectId).prv_candidates
            ++ (api za.objectId).fp_hists ++ (api za.objectId).prv_nondetections)) []
        else
          sortByJd ((api za.objectId).prv_candidates
            ++ (api za.objectId).fp_hists ++ (api za.objectId).prv_nondetections)),
        { za with
            prv_candidates := some (api za.objectId).prv_candidates,
            fp_hists := some (api za.objectId).fp_hists,
            prv_nondetections := some (api za.objectId).prv_nondetections },
        1) := by
  simp [ZtfAlert.get_photometry, h]

/-- Evaluation of `LsstAlert.get_photometry` when a photometry list is
populated: no backfill fetch. -/
theorem lsst_get_photometry_of_populated (api : String → ObjPhotometry)
    (la : LsstAlert) (d : Bool)
    (h : (la.prv_candidates.isNone && la.fp_hists.isNone) = false) :
    LsstAlert.get_photometry api la d =
      ((if d then
          dedupByJdBand (sortByJd (la.prv_candidates.getD [] ++ la.fp_hists.getD [])) []
        else
          sortByJd (la.prv_candidates.getD [] ++ la.fp_hists.getD [])),
        la, 0) := by
  simp [LsstAlert.get_photometry, h]

/-- Evaluation of `LsstAlert.get_photometry` when both photometry lists are
null: one backfill fetch. -/
theorem lsst_get_photometry_of_empty (api : String → ObjPhotometry)
    (la : LsstAlert) (d : Bool)
    (h : (la.prv_candidates.isNone && la.fp_hists.isNone) = true) :
    LsstAlert.get_photometry api la d =
      ((if d then
          dedupByJdBand (sortByJd ((api la.objectId).prv_candidates
            ++ (api la.objectId).fp_hists)) []
        else
          sortByJd ((api la.objectId).prv_candidates ++ (api la.objectId).fp_hists)),
        { la with
            prv_candidates := some (api la.objectId).prv_candidates,
            fp_hists := some (api la.objectId).fp_hists },
        1) := by
  simp [LsstAlert.get_photometry, h]

/-- C7.  With populated photometry lists, `get_photometry(deduplicated=True)`
never returns two records with equal `(jd, band)`, and
`get_photometry(deduplicated=False)` returns exactly as many records as the
concatenated source lists hold, for both alert flavors. -/
theorem c7_get_photometry_dedup_and_count (api : String → ObjPhotometry)
    (za : ZtfAlert) (la : LsstAlert)
    (hz : ¬(za.prv_candidates = none ∧ za.fp_hists = none ∧
      za.prv_nondetections = none))
    (hl : ¬(la.prv_candidates = none ∧ la.fp_hists = none)) :
    (((ZtfAlert.get_photometry api za true).1.map fun p => (p.jd, p.band)).Nodup ∧
      (ZtfAlert.get_photometry api za false).1.length =
        (za.prv_candidates.getD []).length + (za.fp_hists.getD []).length +
          (za.prv_nondetections.getD []).length) ∧
    (((LsstAlert.get_photometry api la true).1.map fun p => (p.jd, p.band)).Nodup ∧
      (LsstAlert.get_photometry api la false).1.length =
        (la.prv_candidates.getD []).length + (la.fp_hists.getD []).length) := by
  have hcz : (za.prv_candidates.isNone && za.fp_hists.isNone &&
      za.prv_nondetections.isNone) = false := by
    cases hc : (za.prv_candidates.isNone && za.fp_hists.isNone &&
      za.prv_nondetections.isNone) with
    | false => rfl
    | true =>
      simp only [Bool.and_eq_true, Option.isNone_iff_eq_none] at hc
      exact absurd ⟨hc.1.1, hc.1.2, hc.2⟩ hz
  have hcl : (la.prv_candidates.isNone && la.fp_hists.isNone) = false := by
    cases hc : (la.prv_candidates.isNone && la.fp_hists.isNone) with
    | false => rfl
    | true =>
      simp only [Bool.and_eq_true, Option.isNone_iff_eq_none] at hc
      exact absurd ⟨hc.1, hc.2⟩ hl
  refine ⟨⟨?_, ?_⟩, ?_, ?_⟩
  · rw [ztf_get_photometry_of_populated api za true hcz]
    exact (dedupByJdBand_keys_nodup _ []).1
  · rw [ztf_get_photometry_of_populated api za false hcz]
    show (sortByJd _).length = _
    rw [length_sortByJd, List.length_append, List.length_append]
  · rw [lsst_get_photometry_of_populated api la true hcl]
    exact (dedupByJdBand_keys_nodup _ []).1
  · rw [lsst_get_photometry_of_populated api la false hcl]
    show (sortByJd _).length = _
    rw [length_sortByJd, List.length_append]

/-- A detection-like photometry record at `jd = 1` in band g (as in the
spec's end-to-end scenario C). -/
noncomputable def photA : Photometry := { jd := 1, psfFluxErr := 1, band := Band.g }

/-- A forced-photometry-like record colliding with `photA` on `(jd, band)`. -/
noncomputable def photB : Photometry := { jd := 1, psfFluxErr := 2, band := Band.g }

/-- A non-detection-like record at `jd = 2` in band r. -/
noncomputable def photC : Photometry := { jd := 2, psfFluxErr := 3, band := Band.r }

/-- A concrete ZTF alert with all three photometry lists populated. -/
noncomputable def ztfPopulated : ZtfAlert :=
  { candid := 1, objectId := "ZTF25aaaaaaa",
    prv_candidates := some [photA],
    fp_hists := some [photB],
    prv_nondetections := some [photC] }

/-- A concrete LSST alert with both photometry lists populated. -/
noncomputable def lsstPopulated : LsstAlert :=
  { candid := 2, objectId := "3141592653589793",
    prv_candidates := some [photA],
    fp_hists := some [photC] }

/-- A REST collaborator stub returning empty photometry for every object. -/
def apiEmpty : String → ObjPhotometry := fun object_id => { objectId := object_id }

/-- C7 witness: `c7_get_photometry_dedup_and_count` at the concrete
populated alerts. -/
theorem c7_get_photometry_dedup_and_count_witness :
    (¬(ztfPopulated.prv_candidates = none ∧ ztfPopulated.fp_hists = none ∧
        ztfPopulated.prv_nondetections = none)) ∧
    (¬(lsstPopulated.prv_candidates = none ∧ lsstPopulated.fp_hists = none)) ∧
    (((ZtfAlert.get_photometry apiEmpty ztfPopulated true).1.map
        fun p => (p.jd, p.band)).Nodup ∧
      (ZtfAlert.get_photometry apiEmpty ztfPopulated false).1.length =
        (ztfPopulated.prv_candidates.getD []).length +
          (ztfPopulated.fp_hists.getD []).length +
          (ztfPopulated.prv_nondetections.getD []).length) ∧
    (((LsstAlert.get_photometry apiEmpty lsstPopulated true).1.map
        fun p => (p.jd, p.band)).Nodup ∧
      (LsstAlert.get_photometry apiEmpty lsstPopulated false).1.length =
        (lsstPopulated.prv_candidates.getD []).length +
          (lsstPopulated.fp_hists.getD []).length) := by
  have hz : ¬(ztfPopulated.prv_candidates = none ∧ ztfPopulated.fp_hists = none ∧
      ztfPopulated.prv_nondetections = none) := by
    simp [ztfPopulated]
  have hl : ¬(lsstPopulated.prv_candidates = none ∧ lsstPopulated.fp_hists = none) := by
    simp [lsstPopulated]
  have h := c7_get_photometry_dedup_and_count apiEmpty ztfPopulated lsstPopulated hz hl
  exact ⟨hz, hl, h.1, h.2⟩

/-- C8.  With populated photometry lists the returned sequence is
non-decreasing in `jd` (with and without deduplication), and for every
`(jd, band)` key the deduplicated sequence retains exactly the record found
first in the concatenation `prv_candidates ++ fp_hists ++ prv_nondetections`
(i.e. ties are broken by source-list precedence, not by any secondary
numeric comparison). -/
theorem c8_get_photometry_sorted_and_precedence (api : String → ObjPhotometry)
    (za : ZtfAlert) (la : LsstAlert)
    (hz : ¬(za.prv_candidates = none ∧ za.fp_hists = none ∧
      za.prv_nondetections = none))
    (hl : ¬(la.prv_candidates = none ∧ la.fp_hists = none)) :
    ((ZtfAlert.get_photometry api za true).1.Pairwise fun a b => a.jd ≤ b.jd) ∧
    ((ZtfAlert.get_photometry api za false).1.Pairwise fun a b => a.jd ≤ b.jd) ∧
    (∀ k, findKey k (ZtfAlert.get_photometry api za true).1 =
      findKey k (za.prv_candidates.getD [] ++ za.fp_hists.getD [] ++
        za.prv_nondetections.getD [])) ∧
    ((LsstAlert.get_photometry api la true).1.Pairwise fun a b => a.jd ≤ b.jd) ∧
    ((LsstAlert.get_photometry api la false).1.Pairwise fun a b => a.jd ≤ b.jd) ∧
    (∀ k, findKey k (LsstAlert.get_photometry api la true).1 =
      findKey k (la.prv_candidates.getD [] ++ la.fp_hists.getD [])) := by
  have hcz : (za.prv_candidates.isNone && za.fp_hists.isNone &&
      za.prv_nondetections.isNone) = false := by
    cases hc : (za.prv_candidates.isNone && za.fp_hists.isNone &&
      za.prv_nondetections.isNone) with
    | false => rfl
    | true =>
      simp only [Bool.and_eq_true, Option.isNone_iff_eq_none] at hc
      exact absurd ⟨hc.1.1, hc.1.2, hc.2⟩ hz
  have hcl : (la.prv_candidates.isNone && la.fp_hists.isNone) = false := by
    cases hc : (la.prv_candidates.isNone && la.fp_hists.isNone) with
    | false => rfl
    | true =>
      simp only [Bool.and_eq_true, Option.isNone_iff_eq_none] at hc
      exact absurd ⟨hc.1, hc.2⟩ hl
  refine ⟨?_, ?_, ?_, ?_, ?_, ?_⟩
  · rw [ztf_get_photometry_of_populated api za true hcz]
    exact List.Pairwise.sublist (dedupByJdBand_sublist _ _) (sorted_sortByJd _)
  · rw [ztf_get_photometry_of_populated api za false hcz]
    exact sorted_sortByJd _
  · intro k
    rw [ztf_get_photometry_of_populated api za true hcz]
    exact (findKey_dedupByJdBand _ (List.not_mem_nil k)).trans (findKey_sortByJd k _)
  · rw [lsst_get_photometry_of_populated api la true hcl]
    exact List.Pairwise.sublist (dedupByJdBand_sublist _ _) (sorted_sortByJd _)
  · rw [lsst_get_photometry_of_populated api la false hcl]
    exact sorted_sortByJd _
  · intro k
    rw [lsst_get_photometry_of_populated api la true hcl]
    exact (findKey_dedupByJdBand _ (List.not_mem_nil k)).trans (findKey_sortByJd k _)

/-- C8 witness: `c8_get_photometry_sorted_and_precedence` at the concrete
populated alerts, with the key instantiated at the `(jd = 1, band = g)`
collision of the spec's scenario C. -/
theorem c8_get_photometry_sorted_and_precedence_witness :
    (¬(ztfPopulated.prv_candidates = none ∧ ztfPopulated.fp_hists = none ∧
        ztfPopulated.prv_nondetections = none)) ∧
    ((ZtfAlert.get_photometry apiEmpty ztfPopulated true).1.Pairwise
      fun a b => a.jd ≤ b.jd) ∧
    findKey ((1 : ℝ), Band.g) (ZtfAlert.get_photometry apiEmpty ztfPopulated true).1 =
      findKey ((1 : ℝ), Band.g) (ztfPopulated.prv_candidates.getD [] ++
        ztfPopulated.fp_hists.getD [] ++ ztfPopulated.prv_nondetections.getD []) ∧
    ((LsstAlert.get_photometry apiEmpty lsstPopulated false).1.Pairwise
      fun a b => a.jd ≤ b.jd) := by
  have hz : ¬(ztfPopulated.prv_candidates = none ∧ ztfPopulated.fp_hists = none ∧
      ztfPopulated.prv_nondetections = none) := by
    simp [ztfPopulated]
  have hl : ¬(lsstPopulated.prv_candidates = none ∧ lsstPopulated.fp_hists = none) := by
    simp [lsstPopulated]
  have h := c8_get_photometry_sorted_and_precedence apiEmpty ztfPopulated
    lsstPopulated hz hl
  exact ⟨hz, h.1, h.2.2.1 ((1 : ℝ), Band.g), h.2.2.2.2.1⟩

/-- C9.  Calling `get_photometry` twice with the same arguments and the same
external collaborator returns equal results; the backfill fetch runs at most
once across the two calls, exactly when all photometry list fields are null
at the first call, and never at the second call. -/
theorem c9_get_photometry_idempotent (api : String → ObjPhotometry)
    (za : ZtfAlert) (la : LsstAlert) (d : Bool) :
    ((ZtfAlert.get_photometry api (ZtfAlert.get_photometry api za d).2.1 d).1 =
        (ZtfAlert.get_photometry api za d).1 ∧
      (ZtfAlert.get_photometry api (ZtfAlert.get_photometry api za d).2.1 d).2.2 = 0 ∧
      (ZtfAlert.get_photometry api za d).2.2 +
        (ZtfAlert.get_photometry api (ZtfAlert.get_photometry api za d).2.1 d).2.2 ≤ 1 ∧
      ((ZtfAlert.get_photometry api za d).2.2 = 1 ↔
        (za.prv_candidates = none ∧ za.fp_hists = none ∧
          za.prv_nondetections = none))) ∧
    ((LsstAlert.get_photometry api (LsstAlert.get_photometry api la d).2.1 d).1 =
        (LsstAlert.get_photometry api la d).1 ∧
      (LsstAlert.get_photometry api (LsstAlert.get_photometry api la d).2.1 d).2.2 = 0 ∧
      (LsstAlert.get_photometry api la d).2.2 +
        (LsstAlert.get_photometry api (LsstAlert.get_photometry api la d).2.1 d).2.2 ≤ 1 ∧
      ((LsstAlert.get_photometry api la d).2.2 = 1 ↔
        (la.prv_candidates = none ∧ la.fp_hists = none))) := by
  constructor
  · cases hc : (za.prv_candidates.isNone && za.fp_hists.isNone &&
      za.prv_nondetections.isNone) with
    | false =>
      have h1 := ztf_get_photometry_of_populated api za d hc
      have e2 : (ZtfAlert.get_photometry api za d).2.1 = za := by rw [h1]
      have e3 : (ZtfAlert.get_photometry api za d).2.2 = 0 := by rw [h1]
      refine ⟨by rw [e2], by rw [e2, e3], by rw [e2, e3]; norm_num, ?_⟩
      rw [e3]
      constructor
      · intro h
        exact absurd h (by norm_num)
      · rintro ⟨ha, hb, hcn⟩
        rw [ha, hb, hcn] at hc
        simp at hc
    | true =>
      have h1 := ztf_get_photometry_of_empty api za d hc
      have e2 : (ZtfAlert.get_photometry api za d).2.1 =
          { za with
              prv_candidates := some (api za.objectId).prv_candidates,
              fp_hists := some (api za.objectId).fp_hists,
              prv_nondetections := some (api za.objectId).prv_nondetections } := by
        rw [h1]
      have e3 : (ZtfAlert.get_photometry api za d).2.2 = 1 := by rw [h1]
      have h2 := ztf_get_photometry_of_populated api
        { za with
            prv_candidates := some (api za.objectId).prv_candidates,
            fp_hists := some (api za.objectId).fp_hists,
            prv_nondetections := some (api za.objectId).prv_nondetections } d rfl
      refine ⟨?_, ?_, ?_, ?_⟩
      · rw [e2, h2, h1]
        rfl
      · rw [e2, h2]
      · rw [e2, h2, e3]
        norm_num
      · rw [e3]
        simp only [Bool.and_eq_true, Option.isNone_iff_eq_none] at hc
        exact ⟨fun _ => ⟨hc.1.1, hc.1.2, hc.2⟩, fun _ => rfl⟩
  · cases hc : (la.prv_candidates.isNone && la.fp_hists.isNone) with
    | false =>
      have h1 := lsst_get_photometry_of_populated api la d hc
      have e2 : (LsstAlert.get_photometry api la d).2.1 = la := by rw [h1]
      have e3 : (LsstAlert.get_photometry api la d).2.2 = 0 := by rw [h1]
      refine ⟨by rw [e2], by rw [e2, e3], by rw [e2, e3]; norm_num, ?_⟩
      rw [e3]
      constructor
      · intro h
        exact absurd h (by norm_num)
      · rintro ⟨ha, hb⟩
        rw [ha, hb] at hc
        simp at hc
    | true =>
      have h1 := lsst_get_photometry_of_empty api la d hc
      have e2 : (LsstAlert.get_photometry api la d).2.1 =
          { la with
              prv_candidates := some (api la.objectId).prv_candidates,
              fp_hists := some (api la.objectId).fp_hists } := by
        rw [h1]
      have e3 : (LsstAlert.get_photometry api la d).2.2 = 1 := by rw [h1]
      have h2 := lsst_get_photometry_of_populated api
        { la with
            prv_candidates := some (api la.objectId).prv_candidates,
            fp_hists := some (api la.objectId).fp_hists } d rfl
      refine ⟨?_, ?_, ?_, ?_⟩
      · rw [e2, h2, h1]
        rfl
      · rw [e2, h2]
      · rw [e2, h2, e3]
        norm_num
      · rw [e3]
        simp only [Bool.and_eq_true, Option.isNone_iff_eq_none] at hc
        exact ⟨fun _ => ⟨hc.1, hc.2⟩, fun _ => rfl⟩

/-! ## Cross-match attachment -/

/-- A concrete non-empty cross-match payload. -/
def cmSample : CrossMatches :=
  { ned := some [{ objname := some "M31", ra := 10.684, dec := 41.269 }] }

/-- A ZTF alert whose `cross_matches` is already set before the call. -/
def ztfPreset : ZtfAlert :=
  { candid := 10, objectId := "ZTF25preset", cross_matches := some cmSample }

/-- A bulk fetch that succeeds and honestly returns matches only for the
requested object IDs: called with no pending IDs it returns the empty
mapping. -/
def fetchOkEmpty : BulkFetch := fun _ _ => Except.ok []

/-- C1.  Evaluation at the failing input: an alert whose `cross_matches`
was already set is excluded from the fetched ID list, yet the assignment
loop still executes `alert.cross_matches = fetched.get(objectId)`, a
dictionary miss, so the preset value is overwritten with `None` instead of
being left unmodified. -/
theorem c1_add_cross_matches_clears_preset :
    ztfPreset.cross_matches = some cmSample ∧
    ztfPendingIds [Alert.ztf ztfPreset] = [] ∧
    add_cross_matches_run fetchOkEmpty [Alert.ztf ztfPreset] =
      [Alert.ztf { ztfPreset with cross_matches := none }] :=
  ⟨rfl, rfl, rfl⟩

/-- A ZTF alert awaiting cross-matches. -/
def ztfPendingAlert : ZtfAlert := { candid := 11, objectId := "ZTF25pending" }

/-- An LSST alert awaiting cross-matches. -/
def lsstPendingAlert : LsstAlert := { candid := 12, objectId := "L25pending" }

/-- The mixed ZTF/LSST alert list used for the cross-match attachment
counterexample and witnesses. -/
def mixedAlerts : List Alert :=
  [Alert.ztf ztfPendingAlert, Alert.lsst lsstPendingAlert]

/-- A bulk fetch whose ZTF partition fails with a transport error while its
LSST partition succeeds and returns a match for the pending LSST alert. -/
def fetchZtfFails : BulkFetch := fun s _ =>
  match s with
  | .ZTF => Except.error { message := "transport failure" }
  | .LSST => Except.ok [("L25pending", cmSample)]

/-- C3 counterexample: on a mixed list, the ZTF partition fetch fails while
the LSST partition fetch succeeds with a match for the pending LSST alert —
yet the call propagates the error before the assignment loop runs, so the
LSST alert keeps `cross_matches = none`: the failure of one partition did
prevent the assignment for the other. -/
theorem c3_counterexample_partition_failure :
    fetchZtfFails Survey.ZTF (ztfPendingIds mixedAlerts) =
      Except.error { message := "transport failure" } ∧
    fetchZtfFails Survey.LSST (lsstPendingIds mixedAlerts) =
      Except.ok [("L25pending", cmSample)] ∧
    lsstPendingAlert.cross_matches = none ∧
    add_cross_matches fetchZtfFails mixedAlerts =
      Except.error { message := "transport failure" } ∧
    add_cross_matches_run fetchZtfFails mixedAlerts = mixedAlerts :=
  ⟨rfl, rfl, rfl, rfl, rfl⟩

/-- C3 amended.  A failure fetching either survey partition propagates out
of `add_cross_matches` and prevents the assignment for BOTH partitions (the
alert list is left unchanged); only when both partition fetches succeed does
every alert receive the lookup of its `objectId` in its own partition's
mapping. -/
theorem c3_amended_partition_failure_scope (fetch : BulkFetch)
    (alerts : List Alert) :
    (∀ e, fetch Survey.ZTF (ztfPendingIds alerts) = Except.error e →
      add_cross_matches_run fetch alerts = alerts) ∧
    (∀ dz e, fetch Survey.ZTF (ztfPendingIds alerts) = Except.ok dz →
      fetch Survey.LSST (lsstPendingIds alerts) = Except.error e →
      add_cross_matches_run fetch alerts = alerts) ∧
    (∀ dz dl, fetch Survey.ZTF (ztfPendingIds alerts) = Except.ok dz →
      fetch Survey.LSST (lsstPendingIds alerts) = Except.ok dl →
      add_cross_matches_run fetch alerts = alerts.map fun alert =>
        match alert with
        | .ztf a => .ztf { a with cross_matches := dz.lookup a.objectId }
        | .lsst a => .lsst { a with cross_matches := dl.lookup a.objectId }) := by
  refine ⟨?_, ?_, ?_⟩
  · intro e he
    simp only [add_cross_matches_run, add_cross_matches, he]
    rfl
  · intro dz e hz he
    simp only [add_cross_matches_run, add_cross_matches, hz, he]
    rfl
  · intro dz dl hz hl
    simp only [add_cross_matches_run, add_cross_matches, hz, hl]
    rfl

/-- C3 amended witness: the three branches of
`c3_amended_partition_failure_scope` applied to concrete fetches over
`mixedAlerts`. -/
theorem c3_amended_partition_failure_scope_witness :
    fetchZtfFails Survey.ZTF (ztfPendingIds mixedAlerts) =
      Except.error { message := "transport failure" } ∧
    add_cross_matches_run fetchZtfFails mixedAlerts = mixedAlerts ∧
    fetchOkEmpty Survey.ZTF (ztfPendingIds mixedAlerts) = Except.ok [] ∧
    fetchOkEmpty Survey.LSST (lsstPendingIds mixedAlerts) = Except.ok [] ∧
    add_cross_matches_run fetchOkEmpty mixedAlerts = mixedAlerts.map (fun alert =>
      match alert with
      | .ztf a => .ztf { a with cross_matches := List.lookup a.objectId [] }
      | .lsst a => .lsst { a with cross_matches := List.lookup a.objectId [] }) :=
  ⟨rfl,
    (c3_amended_partition_failure_scope fetchZtfFails mixedAlerts).1
      { message := "transport failure" } rfl,
    rfl, rfl,
    (c3_amended_partition_failure_scope fetchOkEmpty mixedAlerts).2.2 [] [] rfl rfl⟩

end Babamul
